import Mathlib

/-!
Shallow embedding of `nature-remo-exporter` (src/cmd/root.go) and proofs
about its metric-update logic and refresh-scheduler loop.

The embedding mirrors the Go source:
* `Device` models `natureremo.Device` (the identity attributes the code
  reads, plus the `NewestEvents` map from sensor type to newest value).
  A Go map lookup on an absent key yields the zero value of the element
  type, which is captured by `lookupEvent`.
* `Metrics` / `NewMetrics` / `Metrics.Set` model the metric state, its
  constructor and the update method.  A `GaugeVec` carries its options,
  its label-key schema and its per-LabelSet data.
* The refresh goroutine of `rootCmd.RunE` is modelled as the action trace
  `schedulerTrace`, driven by the sequence of select outcomes
  (cancellation or a tick whose update succeeded or failed).
-/

/-- Sensor kinds of `natureremo.SensorType` used by the code. -/
inductive SensorType where
  | temperature
  | humidity
  | illumination
  | movement
deriving DecidableEq, Repr

/-- Models `natureremo.SensorValue`: a float value and an observation
time (`CreatedAt`).  The code only copies values and compares times for
equality, so `Rat` and `Nat` are faithful carriers. -/
structure SensorValue where
  value : Rat
  createdAt : Nat
deriving DecidableEq, Repr

/-- The Go zero value of `natureremo.SensorValue`, produced by a map
lookup on an absent key. -/
def zeroSensorValue : SensorValue := ⟨0, 0⟩

/-- Models the fields of `natureremo.Device` that the program reads.
`newestEvents` models the Go map `NewestEvents` as an association list
with at most one entry per key. -/
structure Device where
  id : String
  name : String
  firmwareVersion : String
  macAddress : String
  btMacAddress : String
  serialNumber : String
  newestEvents : List (SensorType × SensorValue)
deriving DecidableEq, Repr

/-- Lookup in the `NewestEvents` map, returning the entry when present. -/
def findEvent : List (SensorType × SensorValue) → SensorType → Option SensorValue
  | [], _ => none
  | (k, v) :: rest, t => if k = t then some v else findEvent rest t

/-- A Go map access `device.NewestEvents[t]`: the stored value when the
key is present, the zero value otherwise. -/
def lookupEvent (events : List (SensorType × SensorValue)) (t : SensorType) : SensorValue :=
  (findEvent events t).getD zeroSensorValue

/-- The `prometheus.Labels` map built by `Metrics.Set`: the five label
values the code extracts from a device. -/
structure Labels where
  id : String
  name : String
  firmwareVersion : String
  macAddress : String
  serialNumber : String
deriving DecidableEq, Repr

/-- The label map built at the top of the loop body of `Metrics.Set`. -/
def deviceLabelsOf (d : Device) : Labels :=
  ⟨d.id, d.name, d.firmwareVersion, d.macAddress, d.serialNumber⟩

/-- Models `prometheus.GaugeOpts` (the fields the code sets). -/
structure GaugeOpts where
  ns : String
  name : String
  help : String
deriving DecidableEq, Repr

/-- Models a `prometheus.GaugeVec`: its options, its label-key schema,
and its data keyed by label values (`none` until first written). -/
structure GaugeVec where
  opts : GaugeOpts
  labelNames : List String
  data : Labels → Option Rat

/-- The fully qualified series name the registry derives from the
options: `namespace` + `_` + `name`. -/
def GaugeVec.fqName (g : GaugeVec) : String :=
  g.opts.ns ++ "_" ++ g.opts.name

/-- `gauge.With(labels).Set(v)`: write `v` at the given label values. -/
def GaugeVec.setAt (g : GaugeVec) (l : Labels) (v : Rat) : GaugeVec :=
  { g with data := fun l2 => if l2 = l then some v else g.data l2 }

/-- The `Metrics` struct of the source: four gauge vectors. -/
structure Metrics where
  Temperature : GaugeVec
  Humidity : GaugeVec
  Illumination : GaugeVec
  Movement : GaugeVec

/-- The label-key list `deviceLabels` of `NewMetrics`. -/
def deviceLabels : List String :=
  ["id", "name", "firmware_version", "mac_address", "serial_number"]

/-- The `NewMetrics` constructor: four gauge vectors in namespace
`nature_remo`, each with the `deviceLabels` schema and no data yet. -/
def NewMetrics : Metrics :=
  { Temperature :=
      { opts := ⟨"nature_remo", "temperature", "current temperature"⟩
        labelNames := deviceLabels
        data := fun _ => none }
    Humidity :=
      { opts := ⟨"nature_remo", "humidity", "current humidity"⟩
        labelNames := deviceLabels
        data := fun _ => none }
    Illumination :=
      { opts := ⟨"nature_remo", "illumination", "current illumination"⟩
        labelNames := deviceLabels
        data := fun _ => none }
    Movement :=
      { opts := ⟨"nature_remo", "movement", "current movement"⟩
        labelNames := deviceLabels
        data := fun _ => none } }

/-- One iteration of the loop body of `Metrics.Set`: build the label map
and set all four gauges to the (zero-defaulted) map lookups. -/
def Metrics.setDevice (m : Metrics) (d : Device) : Metrics :=
  let labels := deviceLabelsOf d
  { Temperature := m.Temperature.setAt labels (lookupEvent d.newestEvents SensorType.temperature).value
    Humidity := m.Humidity.setAt labels (lookupEvent d.newestEvents SensorType.humidity).value
    Illumination := m.Illumination.setAt labels (lookupEvent d.newestEvents SensorType.illumination).value
    Movement := m.Movement.setAt labels (lookupEvent d.newestEvents SensorType.movement).value }

/-- `Metrics.Set`: iterate the loop body over the device list and return
`nil` (modelled as `Except.ok`); the method has no other return. -/
def Metrics.Set (m : Metrics) (devices : List Device) : Except String Metrics :=
  Except.ok (devices.foldl Metrics.setDevice m)

/-- Selects a gauge vector of the metric state by sensor kind, matching
which gauge `Metrics.Set` writes from which map key. -/
def gaugeOf : SensorType → Metrics → GaugeVec
  | SensorType.temperature, m => m.Temperature
  | SensorType.humidity, m => m.Humidity
  | SensorType.illumination, m => m.Illumination
  | SensorType.movement, m => m.Movement

/-- The series the program registers on the prometheus registry in
`rootCmd.RunE` (`reg.MustRegister(metrics.Temperature, metrics.Humidity,
metrics.Illumination, metrics.Movement)`), as (series name, label keys)
pairs. -/
def registeredSeries (m : Metrics) : List (String × List String) :=
  [ (m.Temperature.fqName, m.Temperature.labelNames)
  , (m.Humidity.fqName, m.Humidity.labelNames)
  , (m.Illumination.fqName, m.Illumination.labelNames)
  , (m.Movement.fqName, m.Movement.labelNames) ]

/-- The six-key LabelSet of spec section 6 (it adds `bt_mac_address` to
the five keys the source builds), used by the spec-modelled counter. -/
structure SpecLabelSet where
  id : String
  name : String
  firmwareVersion : String
  macAddress : String
  btMacAddress : String
  serialNumber : String
deriving DecidableEq, Repr

/-- The spec LabelSet of a device: all six identity attributes. -/
def specLabelsOf (d : Device) : SpecLabelSet :=
  ⟨d.id, d.name, d.firmwareVersion, d.macAddress, d.btMacAddress, d.serialNumber⟩

/-- Modelled from the spec: the `nature_remo_movement_counter` series and
the last-seen movement `observed_at` map of Metric State (spec sections 3
and 4.2, README metrics table).  The file under src implements only the
four gauges; the counter implementation is missing from src, so it is
modelled from the spec's words.  The counter is keyed by the spec
LabelSet; `lastSeen` maps a device id to the previously recorded movement
`observed_at`. -/
structure CounterState where
  counter : SpecLabelSet → Rat
  lastSeen : String → Option Nat

/-- Add `v` to the counter at one LabelSet (prometheus counter `Inc` is
`Add 1`). -/
def bumpCounter (c : SpecLabelSet → Rat) (l : SpecLabelSet) (v : Rat) : SpecLabelSet → Rat :=
  fun l2 => if l2 = l then c l2 + v else c l2

/-- Modelled from the spec: steps 4 and 5 of `update(snapshots)` for one
device (spec section 4.2).  Look up the previously recorded movement
`observed_at` for the device id: with no previous record, record the
current one and add 0; with an equal record, add 0; otherwise record the
new one and add 1.  A snapshot with no movement reading is "no reading
available" (spec section 3) and touches nothing. -/
def counterStep (s : CounterState) (d : Device) : CounterState :=
  match findEvent d.newestEvents SensorType.movement with
  | none => s
  | some sv =>
    match s.lastSeen d.id with
    | none =>
        { s with lastSeen := fun i => if i = d.id then some sv.createdAt else s.lastSeen i }
    | some prev =>
        if prev = sv.createdAt then s
        else
          { counter := bumpCounter s.counter (specLabelsOf d) 1
            lastSeen := fun i => if i = d.id then some sv.createdAt else s.lastSeen i }

/-- Modelled from the spec: one `update(snapshots)` call restricted to
its counter effect — steps 4 and 5 applied to each snapshot in the input
list in order. -/
def counterUpdate (s : CounterState) (devices : List Device) : CounterState :=
  devices.foldl counterStep s

/-- Whether one `update` invocation of the refresh goroutine returned an
error (a fetch or set failure) or `nil`. -/
inductive CycleResult where
  | ok
  | fail
deriving DecidableEq, Repr

/-- One outcome of the `select` in the refresh goroutine's loop: the
context was cancelled, or the ticker fired and the update cycle it
triggered had the given result. -/
inductive LoopEvent where
  | cancelled
  | tick (r : CycleResult)
deriving DecidableEq, Repr

/-- Observable actions of the refresh goroutine of `rootCmd.RunE`. -/
inductive TraceAction where
  | update (r : CycleResult)
  | logError
  | logInfoShutdown
  | logDebugUpdated
  | tickerStart
  | tickerStop
  | waitSelect
  | exit
deriving DecidableEq, Repr

/-- Trace of the goroutine's `for { select { ... } }` loop, driven by the
sequence of select outcomes.  On cancellation: log `shutting down`, run
the deferred `ticker.Stop()`, return.  On a tick whose update fails: log
the error, run the deferred `ticker.Stop()`, return.  On a tick whose
update succeeds: log the debug message and loop.  An exhausted event list
leaves the goroutine blocked in `select` with nothing further observed. -/
def periodicTrace : List LoopEvent → List TraceAction
  | [] => []
  | LoopEvent.cancelled :: _ =>
      [TraceAction.waitSelect, TraceAction.logInfoShutdown, TraceAction.tickerStop, TraceAction.exit]
  | LoopEvent.tick CycleResult.fail :: _ =>
      [TraceAction.waitSelect, TraceAction.update CycleResult.fail, TraceAction.logError,
       TraceAction.tickerStop, TraceAction.exit]
  | LoopEvent.tick CycleResult.ok :: rest =>
      TraceAction.waitSelect :: TraceAction.update CycleResult.ok :: TraceAction.logDebugUpdated ::
        periodicTrace rest

/-- The goroutine's actions before the loop: run the initial update, log
its error if it failed, create the ticker. -/
def startupTrace : CycleResult → List TraceAction
  | CycleResult.ok => [TraceAction.update CycleResult.ok, TraceAction.tickerStart]
  | CycleResult.fail => [TraceAction.update CycleResult.fail, TraceAction.logError, TraceAction.tickerStart]

/-- Full trace of the refresh goroutine: startup phase with the initial
update's result `r0`, then the periodic loop driven by `events`. -/
def schedulerTrace (r0 : CycleResult) (events : List LoopEvent) : List TraceAction :=
  startupTrace r0 ++ periodicTrace events

/-- The loop actions of `n` consecutive successful periodic cycles. -/
def okCycles : Nat → List TraceAction
  | 0 => []
  | n + 1 =>
      TraceAction.waitSelect :: TraceAction.update CycleResult.ok :: TraceAction.logDebugUpdated ::
        okCycles n

/-! ## Lemmas about the gauge state after `Metrics.Set` -/

/-- After the loop body for device `d`, each gauge at `d`'s label values
holds the (zero-defaulted) map lookup for its sensor kind. -/
theorem gaugeOf_setDevice_self (m : Metrics) (d : Device) (t : SensorType) :
    (gaugeOf t (Metrics.setDevice m d)).data (deviceLabelsOf d) =
      some (lookupEvent d.newestEvents t).value := by
  cases t <;> simp [Metrics.setDevice, gaugeOf, GaugeVec.setAt]

/-- The loop body for device `d` leaves every other LabelSet's gauge
entries unchanged. -/
theorem gaugeOf_setDevice_other (m : Metrics) (d : Device) (t : SensorType)
    (l : Labels) (h : l ≠ deviceLabelsOf d) :
    (gaugeOf t (Metrics.setDevice m d)).data l = (gaugeOf t m).data l := by
  cases t <;> simp [Metrics.setDevice, gaugeOf, GaugeVec.setAt, h]

/-- Folding the loop body over devices none of which carry LabelSet `l`
leaves the gauge entries at `l` unchanged. -/
theorem gaugeOf_foldl_frame (ds : List Device) (m : Metrics) (t : SensorType)
    (l : Labels) (h : ∀ d ∈ ds, deviceLabelsOf d ≠ l) :
    (gaugeOf t (ds.foldl Metrics.setDevice m)).data l = (gaugeOf t m).data l := by
  induction ds generalizing m with
  | nil => rfl
  | cons d0 rest ih =>
      have hne : l ≠ deviceLabelsOf d0 := fun he => h d0 (List.mem_cons_self d0 rest) he.symm
      calc (gaugeOf t ((d0 :: rest).foldl Metrics.setDevice m)).data l
          = (gaugeOf t (rest.foldl Metrics.setDevice (Metrics.setDevice m d0))).data l := rfl
        _ = (gaugeOf t (Metrics.setDevice m d0)).data l :=
            ih (Metrics.setDevice m d0) (fun d hd => h d (List.mem_cons_of_mem d0 hd))
        _ = (gaugeOf t m).data l := gaugeOf_setDevice_other m d0 t l hne

/-- After folding the loop body over a device list whose LabelSets are
pairwise distinct, each member device's gauge entry holds its own
(zero-defaulted) map lookup. -/
theorem gaugeOf_foldl_mem (ds : List Device) (m : Metrics) (d : Device) (t : SensorType)
    (hnd : (ds.map deviceLabelsOf).Nodup) (hmem : d ∈ ds) :
    (gaugeOf t (ds.foldl Metrics.setDevice m)).data (deviceLabelsOf d) =
      some (lookupEvent d.newestEvents t).value := by
  induction ds generalizing m with
  | nil => cases hmem
  | cons d0 rest ih =>
      rw [List.map_cons, List.nodup_cons] at hnd
      rcases List.mem_cons.mp hmem with he | hr
      · subst he
        have hfr : ∀ d2 ∈ rest, deviceLabelsOf d2 ≠ deviceLabelsOf d := by
          intro d2 hd2 heq
          exact hnd.1 (heq ▸ List.mem_map_of_mem deviceLabelsOf hd2)
        calc (gaugeOf t ((d :: rest).foldl Metrics.setDevice m)).data (deviceLabelsOf d)
            = (gaugeOf t (rest.foldl Metrics.setDevice (Metrics.setDevice m d))).data
                (deviceLabelsOf d) := rfl
          _ = (gaugeOf t (Metrics.setDevice m d)).data (deviceLabelsOf d) :=
              gaugeOf_foldl_frame rest (Metrics.setDevice m d) t (deviceLabelsOf d) hfr
          _ = some (lookupEvent d.newestEvents t).value := gaugeOf_setDevice_self m d t
      · exact ih (Metrics.setDevice m d0) hnd.2 hr

/-! ## Concrete data for the absent-sensor counterexample -/

/-- A device whose `NewestEvents` map is empty: every sensor kind is
absent from the snapshot. -/
def c1Device : Device := ⟨"remo1", "living", "1.0", "aa:bb:cc", "", "SN1", []⟩

/-- The label values `Metrics.Set` builds for `c1Device`. -/
def c1Labels : Labels := deviceLabelsOf c1Device

/-- A metric state in which the temperature gauge for `c1Device` already
holds 25 from an earlier cycle. -/
def c1State : Metrics :=
  { NewMetrics with Temperature := NewMetrics.Temperature.setAt c1Labels 25 }

/-- C1: the claim fails on the code.  `Metrics.Set` evaluates the Go map
lookup `device.NewestEvents[t]`, which yields the zero value when the
sensor kind is absent, and unconditionally writes its `.Value` into the
gauge.  At a device with an empty sensor mapping whose temperature gauge
previously held 25, one `Metrics.Set` call overwrites it with 0 instead
of leaving it unchanged. -/
theorem c1_absent_sensor_overwritten_with_zero :
    (gaugeOf SensorType.temperature c1State).data c1Labels = some 25 ∧
    findEvent c1Device.newestEvents SensorType.temperature = none ∧
    ∃ m2, Metrics.Set c1State [c1Device] = Except.ok m2 ∧
      (gaugeOf SensorType.temperature m2).data c1Labels = some 0 := by
  refine ⟨by decide, rfl, Metrics.setDevice c1State c1Device, rfl, by decide⟩

/-- C7: the claim fails on the code.  The program registers exactly four
`nature_remo` series — temperature, humidity, illumination, movement —
and `nature_remo_movement_counter` is not among them; every registered
series carries exactly the five label keys of `deviceLabels`, and
`bt_mac_address` is not among them. -/
theorem c7_registered_series_lack_counter_and_bt_label :
    (registeredSeries NewMetrics).map Prod.fst =
      ["nature_remo_temperature", "nature_remo_humidity",
       "nature_remo_illumination", "nature_remo_movement"] ∧
    "nature_remo_movement_counter" ∉ (registeredSeries NewMetrics).map Prod.fst ∧
    (∀ p ∈ registeredSeries NewMetrics, p.snd = deviceLabels) ∧
    "bt_mac_address" ∉ deviceLabels := by
  refine ⟨by decide, by decide, by decide, by decide⟩

/-- C8: for every input device list with pairwise distinct LabelSets,
every member device, and every sensor kind present in that device's
sensor mapping, `Metrics.Set` succeeds and leaves the corresponding gauge
at that device's exact LabelSet equal to that sensor's value from the
snapshot. -/
theorem c8_present_sensor_gauge_equals_snapshot (m : Metrics) (devices : List Device)
    (d : Device) (t : SensorType) (sv : SensorValue)
    (hnd : (devices.map deviceLabelsOf).Nodup) (hmem : d ∈ devices)
    (hev : findEvent d.newestEvents t = some sv) :
    ∃ m2, Metrics.Set m devices = Except.ok m2 ∧
      (gaugeOf t m2).data (deviceLabelsOf d) = some sv.value := by
  refine ⟨devices.foldl Metrics.setDevice m, rfl, ?_⟩
  rw [gaugeOf_foldl_mem devices m d t hnd hmem]
  simp [lookupEvent, hev]

/-- C8 witness: a concrete one-device list carrying a temperature
reading of 25. -/
theorem c8_present_sensor_gauge_equals_snapshot_witness :
    ∃ m2,
      Metrics.Set NewMetrics
          [⟨"remo1", "living", "1.0", "aa:bb:cc", "", "SN1",
            [(SensorType.temperature, ⟨25, 7⟩)]⟩] = Except.ok m2 ∧
      (gaugeOf SensorType.temperature m2).data
          (deviceLabelsOf ⟨"remo1", "living", "1.0", "aa:bb:cc", "", "SN1",
            [(SensorType.temperature, ⟨25, 7⟩)]⟩) = some (25 : Rat) :=
  c8_present_sensor_gauge_equals_snapshot NewMetrics _ _ SensorType.temperature ⟨25, 7⟩
    (by decide) (List.mem_singleton.mpr rfl) rfl

/-- C9: `Metrics.Set` returns success on every input: its only return
statement is `nil`, modelled as `Except.ok` of the folded state. -/
theorem c9_set_always_ok (m : Metrics) (devices : List Device) :
    ∃ m2, Metrics.Set m devices = Except.ok m2 :=
  ⟨devices.foldl Metrics.setDevice m, rfl⟩

/-! ## Lemmas about the spec-modelled movement-event counter -/

/-- Devices with different ids have different spec LabelSets. -/
theorem specLabelsOf_ne (d d2 : Device) (h : d2.id ≠ d.id) :
    specLabelsOf d2 ≠ specLabelsOf d :=
  fun he => h (congrArg SpecLabelSet.id he)

/-- One counter step never lowers the counter at any LabelSet. -/
theorem counterStep_counter_le (s : CounterState) (d : Device) (l : SpecLabelSet) :
    s.counter l ≤ (counterStep s d).counter l := by
  rcases hfe : findEvent d.newestEvents SensorType.movement with _ | sv
  · simp [counterStep, hfe]
  · rcases hls : s.lastSeen d.id with _ | prev
    · simp [counterStep, hfe, hls]
    · by_cases h : prev = sv.createdAt
      · simp [counterStep, hfe, hls, h]
      · simp only [counterStep, hfe, hls, if_neg h]
        show s.counter l ≤ bumpCounter s.counter (specLabelsOf d) 1 l
        unfold bumpCounter
        by_cases hl : l = specLabelsOf d
        · rw [if_pos hl]; linarith
        · rw [if_neg hl]

/-- One `update` call never lowers the counter at any LabelSet. -/
theorem counterUpdate_counter_le (s : CounterState) (ds : List Device) (l : SpecLabelSet) :
    s.counter l ≤ (counterUpdate s ds).counter l := by
  induction ds generalizing s with
  | nil => exact le_refl _
  | cons d0 rest ih =>
      exact le_trans (counterStep_counter_le s d0 l) (ih (counterStep s d0))

/-- A counter step for a device with a different id changes neither the
counter at `d`'s LabelSet nor the last-seen record of `d`'s id. -/
theorem counterStep_frame (s : CounterState) (d d2 : Device) (h : d2.id ≠ d.id) :
    (counterStep s d2).counter (specLabelsOf d) = s.counter (specLabelsOf d) ∧
    (counterStep s d2).lastSeen d.id = s.lastSeen d.id := by
  have hid : ¬(d.id = d2.id) := fun he => h he.symm
  have hlbl : ¬(specLabelsOf d = specLabelsOf d2) := specLabelsOf_ne d2 d hid
  rcases hfe : findEvent d2.newestEvents SensorType.movement with _ | sv
  · simp [counterStep, hfe]
  · rcases hls : s.lastSeen d2.id with _ | prev
    · exact ⟨by simp [counterStep, hfe, hls], by simp [counterStep, hfe, hls, hid]⟩
    · by_cases heq : prev = sv.createdAt
      · simp [counterStep, hfe, hls, heq]
      · exact ⟨by simp [counterStep, hfe, hls, heq, bumpCounter, hlbl],
               by simp [counterStep, hfe, hls, heq, hid]⟩

/-- Folding counter steps over devices none of which share `d`'s id
changes neither the counter at `d`'s LabelSet nor `d`'s last-seen
record. -/
theorem counterUpdate_frame (ds : List Device) (s : CounterState) (d : Device)
    (h : ∀ d2 ∈ ds, d2.id ≠ d.id) :
    (counterUpdate s ds).counter (specLabelsOf d) = s.counter (specLabelsOf d) ∧
    (counterUpdate s ds).lastSeen d.id = s.lastSeen d.id := by
  induction ds generalizing s with
  | nil => exact ⟨rfl, rfl⟩
  | cons d0 rest ih =>
      have h0 := counterStep_frame s d d0 (h d0 (List.mem_cons_self d0 rest))
      have hr := ih (counterStep s d0) (fun d2 hd2 => h d2 (List.mem_cons_of_mem d0 hd2))
      exact ⟨hr.1.trans h0.1, hr.2.trans h0.2⟩

/-- The counter step for `d` itself adds the spec's increment — 0 with no
previous record or an equal one, 1 otherwise — and records the current
`observed_at`. -/
theorem counterStep_self (s : CounterState) (d : Device) (sv : SensorValue)
    (hev : findEvent d.newestEvents SensorType.movement = some sv) :
    (counterStep s d).counter (specLabelsOf d) =
      s.counter (specLabelsOf d) +
        (match s.lastSeen d.id with
         | none => (0 : Rat)
         | some prev => if prev = sv.createdAt then 0 else 1) ∧
    (counterStep s d).lastSeen d.id = some sv.createdAt := by
  rcases hls : s.lastSeen d.id with _ | prev
  · exact ⟨by simp [counterStep, hev, hls], by simp [counterStep, hev, hls]⟩
  · by_cases heq : prev = sv.createdAt
    · exact ⟨by simp [counterStep, hev, hls, heq],
             by simp [counterStep, hev, hls, heq]⟩
    · exact ⟨by simp [counterStep, hev, hls, heq, bumpCounter],
             by simp [counterStep, hev, hls, heq]⟩

/-- After one `update` over a device list with pairwise distinct ids,
the counter of a member device `d` with a movement reading has grown by
exactly the spec's increment for `d`'s previous record. -/
theorem counterUpdate_mem (ds : List Device) (s : CounterState) (d : Device)
    (sv : SensorValue) (hnd : (ds.map Device.id).Nodup) (hmem : d ∈ ds)
    (hev : findEvent d.newestEvents SensorType.movement = some sv) :
    (counterUpdate s ds).counter (specLabelsOf d) =
      s.counter (specLabelsOf d) +
        (match s.lastSeen d.id with
         | none => (0 : Rat)
         | some prev => if prev = sv.createdAt then 0 else 1) := by
  induction ds generalizing s with
  | nil => cases hmem
  | cons d0 rest ih =>
      rw [List.map_cons, List.nodup_cons] at hnd
      have hstep : counterUpdate s (d0 :: rest) = counterUpdate (counterStep s d0) rest := rfl
      rcases List.mem_cons.mp hmem with he | hr
      · subst he
        have hids : ∀ d2 ∈ rest, d2.id ≠ d.id := by
          intro d2 hd2 heq
          exact hnd.1 (heq ▸ List.mem_map_of_mem Device.id hd2)
        have hframe := counterUpdate_frame rest (counterStep s d) d hids
        have hself := counterStep_self s d sv hev
        rw [hstep, hframe.1, hself.1]
      · have hid0 : d0.id ≠ d.id := by
          intro heq
          exact hnd.1 (heq ▸ List.mem_map_of_mem Device.id hr)
        have hframe := counterStep_frame s d d0 hid0
        rw [hstep, ih (counterStep s d0) hnd.2 hr, hframe.1, hframe.2]

/-- C2: across any sequence of `update` calls, the movement-event counter
at every LabelSet is non-decreasing (spec-modelled counter; each call is
one snapshot-list update). -/
theorem c2_movement_counter_monotone (s : CounterState) (calls : List (List Device))
    (l : SpecLabelSet) :
    s.counter l ≤ (calls.foldl counterUpdate s).counter l := by
  induction calls generalizing s with
  | nil => exact le_refl _
  | cons ds rest ih =>
      exact le_trans (counterUpdate_counter_le s ds l) (ih (counterUpdate s ds))

/-- C3: for an `update` over a device list with pairwise distinct ids and
a member device `d` carrying a movement reading: with no previous record
for `d`'s id the counter is unchanged (increment 0), and with a previous
record the counter grows by exactly 1 when the current `observed_at`
differs from it and by 0 when they are equal (spec-modelled counter). -/
theorem c3_counter_increment (s : CounterState) (ds : List Device) (d : Device)
    (sv : SensorValue) (hnd : (ds.map Device.id).Nodup) (hmem : d ∈ ds)
    (hev : findEvent d.newestEvents SensorType.movement = some sv) :
    (s.lastSeen d.id = none →
       (counterUpdate s ds).counter (specLabelsOf d) = s.counter (specLabelsOf d)) ∧
    (∀ prev, s.lastSeen d.id = some prev →
       (counterUpdate s ds).counter (specLabelsOf d) =
         s.counter (specLabelsOf d) + (if prev = sv.createdAt then (0 : Rat) else 1)) := by
  have hmain := counterUpdate_mem ds s d sv hnd hmem hev
  constructor
  · intro hnone
    rw [hmain, hnone]
    simp
  · intro prev hprev
    rw [hmain, hprev]

/-- A concrete device with a movement reading observed at time 9. -/
def c3Device : Device :=
  ⟨"remo1", "living", "1.0", "aa:bb:cc", "", "SN1", [(SensorType.movement, ⟨1, 9⟩)]⟩

/-- A concrete counter state that has previously recorded `observed_at`
3 for device id `remo1`, with every counter at 2. -/
def c3State : CounterState :=
  ⟨fun _ => 2, fun i => if i = "remo1" then some 3 else none⟩

/-- C3 witness: at the concrete state, one update over the one-device
list increments the counter by exactly 1 (the recorded `observed_at` 3
differs from the current 9). -/
theorem c3_counter_increment_witness :
    (counterUpdate c3State [c3Device]).counter (specLabelsOf c3Device) =
      c3State.counter (specLabelsOf c3Device) +
        (if (3 : Nat) = (9 : Nat) then (0 : Rat) else 1) :=
  (c3_counter_increment c3State [c3Device] c3Device ⟨1, 9⟩ (by decide)
    (List.mem_singleton.mpr rfl) rfl).2 3 (by decide)

/-! ## Lemmas about the refresh-goroutine trace -/

/-- A run of successful ticks contributes exactly its `okCycles` actions
to the loop trace. -/
theorem periodic_ok_append : ∀ (pre rest : List LoopEvent),
    (∀ e ∈ pre, e = LoopEvent.tick CycleResult.ok) →
    periodicTrace (pre ++ rest) = okCycles pre.length ++ periodicTrace rest
  | [], _, _ => rfl
  | e :: pre2, rest, h => by
      have he := h e (List.mem_cons_self e pre2)
      subst he
      have ih2 := periodic_ok_append pre2 rest
        (fun e2 he2 => h e2 (List.mem_cons_of_mem _ he2))
      show TraceAction.waitSelect :: TraceAction.update CycleResult.ok ::
          TraceAction.logDebugUpdated :: periodicTrace (pre2 ++ rest) = _
      rw [ih2]
      rfl

/-- Successful cycles never return from the goroutine. -/
theorem exit_not_mem_okCycles (n : Nat) : TraceAction.exit ∉ okCycles n := by
  induction n with
  | zero => simp [okCycles]
  | succ k ih =>
      intro hm
      simp [okCycles] at hm
      exact ih hm

/-- C5: the very first action of the refresh goroutine is the initial
update — it happens before the goroutine ever waits in `select`, so
before any interval can elapse. -/
theorem c5_initial_update_before_any_wait (r0 : CycleResult) (events : List LoopEvent) :
    (schedulerTrace r0 events).head? = some (TraceAction.update r0) ∧
    ∀ i : Nat, (schedulerTrace r0 events).get? i = some TraceAction.waitSelect → 0 < i := by
  constructor
  · cases r0 <;> rfl
  · intro i hi
    cases i with
    | zero => cases r0 <;> simp [schedulerTrace, startupTrace] at hi
    | succ n => exact Nat.succ_pos n

/-- C5 witness: at a concrete run, the head of the trace is the initial
update and the wait action at index 2 has positive index. -/
theorem c5_initial_update_before_any_wait_witness :
    0 < 2 ∧
    (schedulerTrace CycleResult.ok [LoopEvent.tick CycleResult.ok]).head? =
      some (TraceAction.update CycleResult.ok) :=
  ⟨(c5_initial_update_before_any_wait CycleResult.ok [LoopEvent.tick CycleResult.ok]).2 2
      (by decide),
   (c5_initial_update_before_any_wait CycleResult.ok [LoopEvent.tick CycleResult.ok]).1⟩

/-- C6: when cancellation fires after any run of successful cycles, the
loop wakes from `select`, logs `shutting down`, runs the deferred
`ticker.Stop()` and returns — the trace ends there, so no further update
cycle starts, and no error action occurs after the cancellation. -/
theorem c6_cancellation_stops_ticker_and_exits (r0 : CycleResult)
    (pre post : List LoopEvent)
    (h : ∀ e ∈ pre, e = LoopEvent.tick CycleResult.ok) :
    schedulerTrace r0 (pre ++ LoopEvent.cancelled :: post) =
      startupTrace r0 ++ (okCycles pre.length ++
        [TraceAction.waitSelect, TraceAction.logInfoShutdown,
         TraceAction.tickerStop, TraceAction.exit]) := by
  unfold schedulerTrace
  rw [periodic_ok_append pre (LoopEvent.cancelled :: post) h]
  rfl

/-- C6 witness: a concrete run with one successful cycle and then a
cancellation. -/
theorem c6_cancellation_stops_ticker_and_exits_witness :
    schedulerTrace CycleResult.ok
        ([LoopEvent.tick CycleResult.ok] ++ LoopEvent.cancelled :: []) =
      startupTrace CycleResult.ok ++ (okCycles 1 ++
        [TraceAction.waitSelect, TraceAction.logInfoShutdown,
         TraceAction.tickerStop, TraceAction.exit]) :=
  c6_cancellation_stops_ticker_and_exits CycleResult.ok
    [LoopEvent.tick CycleResult.ok] [] (by decide)

/-- C4: the claim fails on the code.  At a run whose first periodic
cycle's update reports an error, the goroutine logs the error and then
returns (`tickerStop`, `exit` end the trace): the later tick event
produces no further update cycle. -/
theorem c4_periodic_error_terminates_loop :
    schedulerTrace CycleResult.ok
        [LoopEvent.tick CycleResult.fail, LoopEvent.tick CycleResult.ok] =
      [TraceAction.update CycleResult.ok, TraceAction.tickerStart,
       TraceAction.waitSelect, TraceAction.update CycleResult.fail,
       TraceAction.logError, TraceAction.tickerStop, TraceAction.exit] ∧
    TraceAction.update CycleResult.ok ∉
      periodicTrace [LoopEvent.tick CycleResult.fail, LoopEvent.tick CycleResult.ok] :=
  ⟨rfl, by decide⟩

/-- C10: the two phases treat an update error differently.  A failed
initial update is only logged: the goroutine still starts the ticker and
never returns while cycles keep succeeding.  A failed periodic update
ends the goroutine: the trace stops at `logError`, `tickerStop`,
`exit`. -/
theorem c10_startup_error_continues_periodic_error_returns
    (pre post : List LoopEvent)
    (h : ∀ e ∈ pre, e = LoopEvent.tick CycleResult.ok) :
    (TraceAction.tickerStart ∈ schedulerTrace CycleResult.fail pre ∧
     TraceAction.exit ∉ schedulerTrace CycleResult.fail pre) ∧
    schedulerTrace CycleResult.ok (pre ++ LoopEvent.tick CycleResult.fail :: post) =
      startupTrace CycleResult.ok ++ (okCycles pre.length ++
        [TraceAction.waitSelect, TraceAction.update CycleResult.fail,
         TraceAction.logError, TraceAction.tickerStop, TraceAction.exit]) := by
  refine ⟨⟨?_, ?_⟩, ?_⟩
  · exact List.mem_append_left _ (by decide)
  · have hpre : periodicTrace pre = okCycles pre.length := by
      have h2 := periodic_ok_append pre [] h
      have h3 : periodicTrace [] = [] := rfl
      rw [h3, List.append_nil, List.append_nil] at h2
      exact h2
    unfold schedulerTrace
    rw [hpre]
    intro hmem
    rcases List.mem_append.mp hmem with h1 | h2
    · simp [startupTrace] at h1
    · exact exit_not_mem_okCycles pre.length h2
  · unfold schedulerTrace
    rw [periodic_ok_append pre (LoopEvent.tick CycleResult.fail :: post) h]
    rfl

/-- C10 witness: one successful cycle, then a failing one; the trace is
the startup actions, one successful cycle, and the terminating failure
actions. -/
theorem c10_startup_error_continues_periodic_error_returns_witness :
    (TraceAction.tickerStart ∈ schedulerTrace CycleResult.fail [LoopEvent.tick CycleResult.ok] ∧
     TraceAction.exit ∉ schedulerTrace CycleResult.fail [LoopEvent.tick CycleResult.ok]) ∧
    schedulerTrace CycleResult.ok
        ([LoopEvent.tick CycleResult.ok] ++ LoopEvent.tick CycleResult.fail :: []) =
      startupTrace CycleResult.ok ++ (okCycles 1 ++
        [TraceAction.waitSelect, TraceAction.update CycleResult.fail,
         TraceAction.logError, TraceAction.tickerStop, TraceAction.exit]) :=
  c10_startup_error_continues_periodic_error_returns
    [LoopEvent.tick CycleResult.ok] [] (by decide)
